import Mathlib

/-!
Shallow embedding of `zypshot.py` (ZypShot, an interactive front-end for the
`snapper` snapshot tool) and proofs about its parsing, pagination and
configuration-editing logic.

The external process boundary is modelled by a `ToolResult` (exit code,
captured standard output and standard error); terminal output is modelled by
an explicit list of structured `Msg` values instead of printing.
-/

namespace ZypShot

/-! ### Python string primitives used by the code -/

/-- The line-break characters recognised by Python `str.splitlines`
(`\n`, `\r`, `\v`, `\f`, FS, GS, RS, NEL, LS, PS; `\r\n` counts as one). -/
def pyLineBreak (c : Char) : Bool :=
  c = '\n' || c = '\r' || c = Char.ofNat 11 || c = Char.ofNat 12 ||
  c = Char.ofNat 28 || c = Char.ofNat 29 || c = Char.ofNat 30 ||
  c = Char.ofNat 133 || c = Char.ofNat 8232 || c = Char.ofNat 8233

/-- Worker for `pySplitlines`: `acc` holds the current line, reversed. -/
def splitlinesAux : List Char → List Char → List String
  | [], [] => []
  | [], acc => [String.mk acc.reverse]
  | '\r' :: '\n' :: rest, acc => String.mk acc.reverse :: splitlinesAux rest []
  | c :: rest, acc =>
    if pyLineBreak c then String.mk acc.reverse :: splitlinesAux rest []
    else splitlinesAux rest (c :: acc)

/-- Python `str.splitlines`: splits on line boundaries, with no trailing
empty line for a terminated final line (`"a\n".splitlines() == ["a"]`,
`"".splitlines() == []`, `"\n".splitlines() == [""]`). -/
def pySplitlines (s : String) : List String :=
  splitlinesAux s.data []

/-- Whitespace stripped by Python `str.strip()`; the ASCII whitespace
characters (the snapper output handled by the tool is ASCII text). -/
def pySpace (c : Char) : Bool :=
  c = ' ' || c = '\t' || c = '\n' || c = '\r' || c = Char.ofNat 11 || c = Char.ofNat 12

/-- Python `str.strip()` on a character list: drop leading and trailing
whitespace. -/
def pyStripL (l : List Char) : List Char :=
  ((l.dropWhile pySpace).reverse.dropWhile pySpace).reverse

/-- Python `str.strip()`: drop leading and trailing whitespace. -/
def pyStrip (s : String) : String :=
  String.mk (pyStripL s.data)

/-- Python `str.split(sep)` for a one-character separator `sep`
(`"".split(sep) == [""]`; empty fields are kept). -/
def splitOnChar (sep : Char) : List Char → List (List Char)
  | [] => [[]]
  | c :: rest =>
    if c = sep then [] :: splitOnChar sep rest
    else
      match splitOnChar sep rest with
      | [] => [[c]]
      | g :: gs => (c :: g) :: gs

/-- Python `str.startswith(prefix)`. -/
def pyStartsWith (s pre : String) : Bool :=
  pre.data.isPrefixOf s.data

/-- Python `str.lower()` on ASCII text. -/
def pyLower (s : String) : String :=
  String.mk (s.data.map Char.toLower)

def pyDigit (c : Char) : Bool := '0' ≤ c && c ≤ '9'

/-- Digit run after the first digit of a Python integer literal: further
digits, with single underscores allowed between digits. -/
def pyIntDigits : List Char → Nat → Option Nat
  | [], acc => some acc
  | '_' :: c :: rest, acc =>
    if pyDigit c then pyIntDigits rest (acc * 10 + (c.toNat - 48)) else none
  | c :: rest, acc =>
    if pyDigit c then pyIntDigits rest (acc * 10 + (c.toNat - 48)) else none

/-- Python `int(str)`: optional surrounding whitespace, optional sign, then a
digit sequence (underscores allowed between digits); `none` when the string
does not parse (`int` raising `ValueError`). -/
def pyInt (s : String) : Option Int :=
  let t := ((s.data.dropWhile pySpace).reverse.dropWhile pySpace).reverse
  match t with
  | '+' :: c :: rest =>
    if pyDigit c then (pyIntDigits rest (c.toNat - 48)).map Int.ofNat else none
  | '-' :: c :: rest =>
    if pyDigit c then (pyIntDigits rest (c.toNat - 48)).map (fun n => -(Int.ofNat n)) else none
  | c :: rest =>
    if pyDigit c then (pyIntDigits rest (c.toNat - 48)).map Int.ofNat else none
  | [] => none

/-! ### External-tool boundary (`run_snapper_command`) -/

/-- Result of one run of the external `snapper` process. -/
structure ToolResult where
  exitCode : Int
  stdout : String
  stderr : String
deriving DecidableEq, Repr

/-- A structured stand-in for one `console.print` call. -/
inductive Msg where
  | snapperError (args : List String) (stderr : String)
  | noSnapshotsFound
  | noSnapshotsAvailable
  | skippingMalformed (line : String)
  | snapshotCreated (description : String)
  | cleanupCompleted (cleanupType : String)
  | cleanupFailedOrEmpty
deriving DecidableEq, Repr

/-- `run_snapper_command`: `subprocess.run(..., check=True)` raises
`CalledProcessError` exactly on a non-zero exit; the handler prints the
tool's stderr and returns `None`; otherwise the captured stdout is returned.
The Lean model is a total function, so no exception escapes to the caller. -/
def run_snapper_command (args : List String) (r : ToolResult) : Option String × List Msg :=
  if r.exitCode = 0 then (some r.stdout, [])
  else (none, [Msg.snapperError args r.stderr])

/-- Python truthiness of the value callers test (`if output:`):
`None` and the empty string are both falsy. -/
def pyTruthyStr : Option String → Bool
  | none => false
  | some s => s ≠ ""

/-! ### Snapshot-list parser (`list_snapshots`) -/

/-- One parsed snapshot row. -/
structure Snapshot where
  number : String
  type : String
  date : String
  description : String
deriving DecidableEq, Repr

/-- `parts[i] or "-"`: an empty (falsy) field defaults to the placeholder. -/
def orDash (s : String) : String := if s = "" then "-" else s

/-- The whitespace-trimmed fields of one row:
`[part.strip() for part in line.split("│")]`. -/
def rowFields (line : String) : List String :=
  (splitOnChar '│' line.data).map (fun cs => String.mk (pyStripL cs))

/-- One iteration of the `for line in lines[2:]` loop body: a row with at
least 7 fields yields a snapshot record built from fields 0, 1, 3 and 6;
a shorter row yields none (it is skipped with a warning). -/
def parseRow (line : String) : Option Snapshot :=
  let parts := rowFields line
  if h : 7 ≤ parts.length then
    some { number := orDash (parts.get ⟨0, by omega⟩)
           type := orDash (parts.get ⟨1, by omega⟩)
           date := orDash (parts.get ⟨3, by omega⟩)
           description := orDash (parts.get ⟨6, by omega⟩) }
  else none

/-- Loop step accumulating parsed snapshots and malformed-row warnings. -/
def snapRowStep (acc : List Snapshot × List Msg) (line : String) : List Snapshot × List Msg :=
  match parseRow line with
  | some s => (acc.1 ++ [s], acc.2)
  | none => (acc.1, acc.2 ++ [Msg.skippingMalformed line])

/-- `list_snapshots`: runs `snapper --config <config> list`, returns `[]`
with a message when the output is falsy or has at most 2 lines, and
otherwise parses every line after the 2-line header. -/
def list_snapshots (config : String) (r : ToolResult) : List Snapshot × List Msg :=
  let (output, msgs) := run_snapper_command ["--config", config, "list"] r
  match output with
  | none => ([], msgs ++ [Msg.noSnapshotsFound])
  | some out =>
    if out = "" then ([], msgs ++ [Msg.noSnapshotsFound])
    else
      let lines := pySplitlines out
      if lines.length ≤ 2 then ([], msgs ++ [Msg.noSnapshotsAvailable])
      else (lines.drop 2).foldl snapRowStep ([], msgs)

/-! ### Other snapper-invoking actions -/

/-- `create_snapshot`: prints a success message only when the returned
output is truthy. -/
def create_snapshot (config description : String) (r : ToolResult) : List Msg :=
  let (output, msgs) := run_snapper_command ["--config", config, "create", "--description", description] r
  msgs ++ (if pyTruthyStr output then [Msg.snapshotCreated description] else [])

/-- `cleanup_snapshots`: prints the completion message on truthy output and
the "No snapshots cleaned or error occurred" message otherwise. -/
def cleanup_snapshots (config cleanupType : String) (r : ToolResult) : List Msg :=
  let (output, msgs) := run_snapper_command ["--config", config, "cleanup", cleanupType] r
  msgs ++ (if pyTruthyStr output then [Msg.cleanupCompleted cleanupType] else [Msg.cleanupFailedOrEmpty])

/-! ### Diff/status parser (`compare_snapshots`) -/

/-- The three buckets built while parsing `snapper status` output. -/
structure DiffResult where
  added : List String
  removed : List String
  modified : List String
deriving DecidableEq, Repr

/-- `re.match(r'^[+\-c ].+', line)`: the first character is a status
character and at least one further character follows (`.` does not match a
newline, so the second character must not be `\n`). -/
def statusMatch : List Char → Bool
  | c :: c2 :: _ =>
    (c = '+' || c = '-' || c = 'c' || c = ' ') && c2 ≠ '\n'
  | _ => false

/-- One iteration of the status-parsing loop: the line is stripped, tested
against the regex, and on a match `line[0]` selects the bucket while
`line[2:].strip()` is the path; a `' '` status has no branch and is
dropped (a stripped line cannot begin with a space anyway). -/
def statusStep (acc : DiffResult) (raw : String) : DiffResult :=
  let line := pyStrip raw
  if line ≠ "" && statusMatch line.data then
    let path := pyStrip (String.mk (line.data.drop 2))
    match line.data with
    | c :: _ =>
      if c = '+' then { acc with added := acc.added ++ [path] }
      else if c = '-' then { acc with removed := acc.removed ++ [path] }
      else if c = 'c' then { acc with modified := acc.modified ++ [path] }
      else acc
    | [] => acc
  else acc

/-- The parsing phase of `compare_snapshots`: categorise every line of the
`snapper status` output into added/removed/modified buckets. -/
def compare_snapshots_parse (output : String) : DiffResult :=
  (pySplitlines output).foldl statusStep ⟨[], [], []⟩

/-! ### Paginated display (`display_paginated_files`) -/

/-- The fixed `items_per_page` default. -/
def items_per_page : Nat := 20

/-- `total_pages = (len(files) + items_per_page - 1) // items_per_page`. -/
def total_pages (n : Nat) : Nat := (n + items_per_page - 1) / items_per_page

/-- The slice `files[start_idx:end_idx]` displayed on page `p`, where
`start_idx = (p - 1) * items_per_page` and
`end_idx = min(start_idx + items_per_page, len(files))`. -/
def page_slice (files : List String) (p : Nat) : List String :=
  let start := (p - 1) * items_per_page
  let stop := min (start + items_per_page) files.length
  (files.drop start).take (stop - start)

/-- The choice list passed to `Prompt.ask` when `total_pages > 1`:
`["p","n","q"]` strictly between first and last page, `["n","q"]` on
page 1, `["p","q"]` otherwise. -/
def pageChoices (p total : Nat) : List String :=
  if 1 < p ∧ p < total then ["p", "n", "q"]
  else if p = 1 then ["n", "q"]
  else ["p", "q"]

/-- One iteration of the navigation loop: `n` advances when not on the last
page, `p` goes back when not on the first, `q` exits (`none`); any other
input leaves the page unchanged. -/
def pageStep (total : Nat) (p : Nat) (choice : String) : Option Nat :=
  if choice = "n" ∧ p < total then some (p + 1)
  else if choice = "p" ∧ 1 < p then some (p - 1)
  else if choice = "q" then none
  else some p

/-- Run the navigation loop from page `p` on a list of entered choices;
`none` means the loop has exited. -/
def runPages (total : Nat) (p : Nat) : List String → Option Nat
  | [] => some p
  | c :: cs =>
    match pageStep total p c with
    | none => none
    | some p2 => runPages total p2 cs

/-! ### Cleanup-settings editor (`edit_cleanup_settings`) -/

/-- The configuration file as seen by the editor: the list of raw lines
(as returned by `readlines`, line terminators included) and the permission
bits of the file. -/
structure ConfigFile where
  lines : List String
  mode : Nat
deriving DecidableEq, Repr

/-- The allow-list of editable settings. -/
def valid_settings : List String :=
  ["TIMELINE_CREATE", "TIMELINE_CLEANUP", "TIMELINE_MIN_AGE", "TIMELINE_LIMIT_HOURLY",
   "TIMELINE_LIMIT_DAILY", "TIMELINE_LIMIT_WEEKLY", "TIMELINE_LIMIT_MONTHLY", "TIMELINE_LIMIT_YEARLY",
   "NUMBER_CLEANUP", "NUMBER_MIN_AGE", "NUMBER_LIMIT",
   "EMPTY_PRE_POST_CLEANUP", "EMPTY_PRE_POST_MIN_AGE"]

/-- The settings validated as integers. -/
def numeric_settings : List String :=
  ["TIMELINE_MIN_AGE", "TIMELINE_LIMIT_HOURLY", "TIMELINE_LIMIT_DAILY",
   "TIMELINE_LIMIT_WEEKLY", "TIMELINE_LIMIT_MONTHLY", "TIMELINE_LIMIT_YEARLY",
   "NUMBER_MIN_AGE", "NUMBER_LIMIT", "EMPTY_PRE_POST_MIN_AGE"]

/-- The settings validated as yes/no flags. -/
def boolean_settings : List String :=
  ["TIMELINE_CREATE", "TIMELINE_CLEANUP", "NUMBER_CLEANUP", "EMPTY_PRE_POST_CLEANUP"]

/-- How one call to `edit_cleanup_settings` ended. -/
inductive EditOutcome where
  | invalidSetting
  | invalidNumber
  | invalidBool
  | updated (written : String)
deriving DecidableEq, Repr

/-- The write phase: every line beginning with `<setting>=` is replaced by
`<setting>="<value>"\n` (and `found` is set); if no line matched, the new
line is appended; afterwards `os.chmod(config_file, 0o644)` fixes the
permission bits. -/
def editWrite (setting value : String) (file : ConfigFile) : ConfigFile :=
  let marker := setting ++ "="
  let newLine := setting ++ "=\"" ++ value ++ "\"\n"
  let found := file.lines.any (fun l => pyStartsWith l marker)
  let body :=
    if found then file.lines.map (fun l => if pyStartsWith l marker then newLine else l)
    else file.lines ++ [newLine]
  { lines := body, mode := 0o644 }

/-- `edit_cleanup_settings` after the two prompts: reject a setting outside
the allow-list; for a numeric setting, `int(value)` failing (`ValueError`)
rejects before the file is opened; for a boolean setting, a value whose
lower-casing is neither "yes" nor "no" is rejected before the file is
opened; otherwise the file is rewritten (with `str(int(value))` as the
written value for numeric settings). -/
def edit_cleanup_settings (setting value : String) (file : ConfigFile) :
    ConfigFile × EditOutcome :=
  if setting ∈ valid_settings then
    if setting ∈ numeric_settings then
      match pyInt value with
      | some n => (editWrite setting (toString n) file, EditOutcome.updated (toString n))
      | none => (file, EditOutcome.invalidNumber)
    else if setting ∈ boolean_settings then
      if pyLower value = "yes" ∨ pyLower value = "no" then
        (editWrite setting value file, EditOutcome.updated value)
      else (file, EditOutcome.invalidBool)
    else (editWrite setting value file, EditOutcome.updated value)
  else (file, EditOutcome.invalidSetting)

/-! ### Helper lemmas -/

/-- The snapshot component of the parsing loop is the `filterMap` of the
per-row parser: accepted rows appear in order, skipped rows leave no trace
in the snapshot list. -/
theorem snapFold_fst (L : List String) (s0 : List Snapshot) (m0 : List Msg) :
    (L.foldl snapRowStep (s0, m0)).1 = s0 ++ L.filterMap parseRow := by
  induction L generalizing s0 m0 with
  | nil => simp
  | cons l L ih =>
    cases hp : parseRow l with
    | none => simp [List.foldl_cons, snapRowStep, hp, ih]
    | some s => simp [List.foldl_cons, snapRowStep, hp, ih]

/-! ### Theorems for the claims -/

/-- C6: `run_snapper_command` never raises to its caller (it is a total
function of the tool result): on non-zero exit it reports the tool's
standard-error text and returns `none`; on zero exit it returns the
captured standard output with no error report. -/
theorem C6_run_snapper_never_raises (args : List String) (r : ToolResult) :
    (r.exitCode ≠ 0 → run_snapper_command args r = (none, [Msg.snapperError args r.stderr])) ∧
    (r.exitCode = 0 → run_snapper_command args r = (some r.stdout, [])) := by
  constructor <;> intro h <;> simp [run_snapper_command, h]

/-- Witness for C6 at a failing and at a succeeding tool result. -/
theorem C6_run_snapper_never_raises_witness :
    run_snapper_command ["list"] ⟨1, "", "boom"⟩ = (none, [Msg.snapperError ["list"] "boom"]) ∧
    run_snapper_command ["list"] ⟨0, "out", ""⟩ = (some "out", []) :=
  ⟨(C6_run_snapper_never_raises ["list"] ⟨1, "", "boom"⟩).1 (by decide),
   (C6_run_snapper_never_raises ["list"] ⟨0, "out", ""⟩).2 rfl⟩

/-- C9: when the tool succeeds but its output splits into fewer than
3 lines, `list_snapshots` returns the empty sequence of records. -/
theorem C9_short_output_empty (config : String) (r : ToolResult)
    (h0 : r.exitCode = 0) (h : (pySplitlines r.stdout).length < 3) :
    (list_snapshots config r).1 = [] := by
  by_cases he : r.stdout = ""
  · simp [list_snapshots, run_snapper_command, h0, he]
  · have h2 : (pySplitlines r.stdout).length ≤ 2 := by omega
    simp [list_snapshots, run_snapper_command, h0, he, h2]

/-- Witness for C9 on a two-line output. -/
theorem C9_short_output_empty_witness :
    (list_snapshots "root" ⟨0, "h1\nh2", ""⟩).1 = [] :=
  C9_short_output_empty "root" ⟨0, "h1\nh2", ""⟩ rfl (by decide)

/-- C10: a zero-exit invocation with empty stdout is indistinguishable from
a failed invocation to every caller, because callers test the returned
output for truthiness (`if output:`) and both `none` and `""` are falsy:
`list_snapshots` then reports its error message and returns `[]`,
`create_snapshot` prints no success confirmation, and `cleanup_snapshots`
prints "No snapshots cleaned or error occurred" even though the cleanup
succeeded. -/
theorem C10_empty_success_indistinguishable
    (args : List String) (config desc ctype stderrA stderrB : String) :
    pyTruthyStr (run_snapper_command args ⟨0, "", stderrA⟩).1 =
      pyTruthyStr (run_snapper_command args ⟨1, "", stderrB⟩).1 ∧
    (list_snapshots config ⟨0, "", stderrA⟩).1 = [] ∧
    Msg.noSnapshotsFound ∈ (list_snapshots config ⟨0, "", stderrA⟩).2 ∧
    create_snapshot config desc ⟨0, "", stderrA⟩ = [] ∧
    cleanup_snapshots config ctype ⟨0, "", stderrA⟩ = [Msg.cleanupFailedOrEmpty] := by
  refine ⟨?_, ?_, ?_, ?_, ?_⟩ <;>
    simp [run_snapper_command, pyTruthyStr, list_snapshots, create_snapshot,
      cleanup_snapshots]

/-- C7: for a non-empty item list, `total_pages` is the ceiling of
`length / 20` (the unique `t` with `20 * (t - 1) < length ≤ 20 * t`), and
page `k` (`k ≥ 1`) shows exactly the items at indices `(k-1)*20` through
`min (k*20) length - 1`; in particular 45 items yield 3 pages and page 3
holds exactly 5 items. -/
theorem C7_pagination_pages (files : List String) (h : files ≠ []) :
    items_per_page * (total_pages files.length - 1) < files.length ∧
    files.length ≤ items_per_page * total_pages files.length ∧
    (∀ k, 1 ≤ k → ∀ i : Nat,
      (page_slice files k)[i]? =
        if (k - 1) * items_per_page + i < min (k * items_per_page) files.length
        then files[(k - 1) * items_per_page + i]? else none) ∧
    total_pages 45 = 3 ∧
    (files.length = 45 → (page_slice files 3).length = 5) := by
  have hn : 0 < files.length := List.length_pos.mpr h
  refine ⟨?_, ?_, ?_, by decide, ?_⟩
  · unfold total_pages items_per_page
    omega
  · unfold total_pages items_per_page
    omega
  · intro k hk i
    simp only [page_slice, items_per_page, List.getElem?_take, List.getElem?_drop]
    by_cases hc : (k - 1) * 20 + i < min (k * 20) files.length
    · rw [if_pos (by omega), if_pos hc]
    · rw [if_neg (by omega), if_neg hc]
  · intro h45
    simp [page_slice, items_per_page, h45]

/-- Witness for C7 over a concrete 45-item list. -/
theorem C7_pagination_pages_witness :
    total_pages (((List.range 45).map toString).length) = 3 ∧
    (page_slice ((List.range 45).map toString) 3).length = 5 := by
  have h := C7_pagination_pages ((List.range 45).map toString) (by decide)
  exact ⟨by simpa using h.2.2.2.1, h.2.2.2.2 (by simp)⟩

/-- C1: on a successful list run with a non-degenerate output, the produced
records are exactly the `filterMap` of the per-row parser over the lines
after the 2-line header; a row with at least 7 trimmed fields is accepted
with fields 0, 1, 3, 6 mapped (empty fields defaulting to "-") to the
number, type, date and description attributes; a row with fewer than 7
fields is rejected, and removing such a row from the line list leaves the
parse of all remaining rows unchanged. -/
theorem C1_list_parser_rows (config : String) (r : ToolResult)
    (h0 : r.exitCode = 0) (hne : r.stdout ≠ "")
    (h3 : 2 < (pySplitlines r.stdout).length) :
    (list_snapshots config r).1 = ((pySplitlines r.stdout).drop 2).filterMap parseRow ∧
    (∀ line, 7 ≤ (rowFields line).length →
        parseRow line = some
          { number := orDash ((rowFields line).getD 0 "")
            type := orDash ((rowFields line).getD 1 "")
            date := orDash ((rowFields line).getD 3 "")
            description := orDash ((rowFields line).getD 6 "") }) ∧
    (∀ line, (rowFields line).length < 7 → parseRow line = none) ∧
    (∀ pre bad post, (pySplitlines r.stdout).drop 2 = pre ++ bad :: post →
        (rowFields bad).length < 7 →
        (list_snapshots config r).1 = pre.filterMap parseRow ++ post.filterMap parseRow) := by
  have hmain : (list_snapshots config r).1 =
      ((pySplitlines r.stdout).drop 2).filterMap parseRow := by
    have h2 : ¬ (pySplitlines r.stdout).length ≤ 2 := by omega
    simp only [list_snapshots, run_snapper_command, if_pos h0, if_neg hne, if_neg h2]
    exact snapFold_fst _ [] []
  have haccept : ∀ line, 7 ≤ (rowFields line).length →
      parseRow line = some
        { number := orDash ((rowFields line).getD 0 "")
          type := orDash ((rowFields line).getD 1 "")
          date := orDash ((rowFields line).getD 3 "")
          description := orDash ((rowFields line).getD 6 "") } := by
    intro line hlen
    rw [parseRow, dif_pos hlen]
    congr 1
    congr 1 <;>
      rw [List.getD_eq_getElem _ _ (by omega)] <;> rfl
  refine ⟨hmain, haccept, ?_, ?_⟩
  · intro line hlen
    rw [parseRow, dif_neg (by omega)]
  · intro pre bad post hsplit hbad
    have hb : parseRow bad = none := by rw [parseRow, dif_neg (by omega)]
    rw [hmain, hsplit, List.filterMap_append, List.filterMap_cons, hb]

/-- Witness for C1 on a concrete output with one well-formed and one
malformed row. -/
theorem C1_list_parser_rows_witness :
    (list_snapshots "root" ⟨0, "h1\nh2\n1 │ s │ │ d │ u │ cl │ de\nbad", ""⟩).1 =
      [{ number := "1", type := "s", date := "d", description := "de" }] := by
  have h := C1_list_parser_rows "root" ⟨0, "h1\nh2\n1 │ s │ │ d │ u │ cl │ de\nbad", ""⟩
    rfl (by decide) (by decide)
  rw [h.1]
  decide

/-- A navigation step that stays in the loop keeps the page within
`[1, total]`. -/
theorem pageStep_bounds (total p p2 : Nat) (c : String) (h1 : 1 ≤ p) (h2 : p ≤ total)
    (h : pageStep total p c = some p2) : 1 ≤ p2 ∧ p2 ≤ total := by
  unfold pageStep at h
  by_cases hn : c = "n" ∧ p < total
  · rw [if_pos hn] at h
    obtain ⟨-, hn2⟩ := hn
    injection h with h
    omega
  · rw [if_neg hn] at h
    by_cases hp : c = "p" ∧ 1 < p
    · rw [if_pos hp] at h
      obtain ⟨-, hp2⟩ := hp
      injection h with h
      omega
    · rw [if_neg hp] at h
      by_cases hq : c = "q"
      · rw [if_pos hq] at h
        exact Option.noConfusion h
      · rw [if_neg hq] at h
        injection h with h
        omega

/-- Any run of the navigation loop from an in-range page stays in range. -/
theorem runPages_bounds (total : Nat) (cmds : List String) :
    ∀ p0, 1 ≤ p0 → p0 ≤ total → ∀ p, runPages total p0 cmds = some p →
      1 ≤ p ∧ p ≤ total := by
  induction cmds with
  | nil =>
    intro p0 h1 h2 p hp
    rw [runPages] at hp
    injection hp with hp
    omega
  | cons c cs ih =>
    intro p0 h1 h2 p hp
    rw [runPages] at hp
    cases hs : pageStep total p0 c with
    | none => rw [hs] at hp; exact Option.noConfusion hp
    | some p2 =>
      rw [hs] at hp
      have hb := pageStep_bounds total p0 p2 c h1 h2 hs
      exact ih p2 hb.1 hb.2 p hp

/-- C8: starting from page 1, every page reached by the navigation loop
satisfies `1 ≤ page ≤ total`; whenever the navigation prompt is shown
(more than one page), the offered commands are exactly the valid subset:
"p" iff not on the first page, "n" iff not on the last, "q" always; and
choosing "q" exits the loop. -/
theorem C8_pagination_invariant (total : Nat) (h1 : 1 ≤ total) :
    (∀ cmds p, runPages total 1 cmds = some p → 1 ≤ p ∧ p ≤ total) ∧
    (∀ p, 1 ≤ p → p ≤ total → 2 ≤ total →
        (("p" ∈ pageChoices p total) ↔ 1 < p) ∧
        (("n" ∈ pageChoices p total) ↔ p < total) ∧
        "q" ∈ pageChoices p total) ∧
    (∀ p, pageStep total p "q" = none) := by
  refine ⟨fun cmds p => runPages_bounds total cmds 1 le_rfl h1 p, ?_, ?_⟩
  · intro p hp1 hp2 ht
    by_cases hmid : 1 < p ∧ p < total
    · rw [pageChoices, if_pos hmid]
      refine ⟨?_, ?_, by simp⟩ <;> simp <;> omega
    · by_cases hone : p = 1
      · rw [pageChoices, if_neg hmid, if_pos hone]
        refine ⟨?_, ?_, by simp⟩ <;> simp <;> omega
      · rw [pageChoices, if_neg hmid, if_neg hone]
        refine ⟨?_, ?_, by simp⟩ <;> simp <;> omega
  · intro p
    simp [pageStep]

/-- Witness for C8 with 3 pages: two "n" steps from page 1 stay in range,
"n" is offered on page 1, and "q" exits. -/
theorem C8_pagination_invariant_witness :
    (1 ≤ 3 ∧ 3 ≤ 3) ∧ ("n" ∈ pageChoices 1 3) ∧ pageStep 3 1 "q" = none := by
  have h := C8_pagination_invariant 3 (by decide)
  exact ⟨h.1 ["n", "n"] 3 (by decide),
    ((h.2.1 1 (by decide) (by decide) (by decide)).2.1).mpr (by decide),
    h.2.2 1⟩

/-- Every call to the editor either performs the write phase (with some
written value) or leaves the file untouched with a non-`updated` outcome. -/
theorem edit_result_cases (setting value : String) (file : ConfigFile) :
    (∃ v, edit_cleanup_settings setting value file =
        (editWrite setting v file, EditOutcome.updated v)) ∨
    ((edit_cleanup_settings setting value file).1 = file ∧
      ∀ w, (edit_cleanup_settings setting value file).2 ≠ EditOutcome.updated w) := by
  unfold edit_cleanup_settings
  split
  · split
    · cases hpi : pyInt value with
      | some n => exact Or.inl ⟨toString n, rfl⟩
      | none => exact Or.inr ⟨rfl, fun w => by simp⟩
    · split
      · split
        · exact Or.inl ⟨value, rfl⟩
        · exact Or.inr ⟨rfl, fun w => by simp⟩
      · exact Or.inl ⟨value, rfl⟩
  · exact Or.inr ⟨rfl, fun w => by simp⟩

/-- C2 counterexample: a successful boolean write on a file whose mode was
`0o600` leaves the file with mode `0o644`, so the permission bits are not
preserved. -/
theorem C2_permissions_counterexample :
    (edit_cleanup_settings "TIMELINE_CREATE" "yes"
        { lines := ["TIMELINE_CREATE=\"no\"\n"], mode := 0o600 }).2 =
      EditOutcome.updated "yes" ∧
    (edit_cleanup_settings "TIMELINE_CREATE" "yes"
        { lines := ["TIMELINE_CREATE=\"no\"\n"], mode := 0o600 }).1.mode ≠ 0o600 := by
  decide

/-- C2 amended: after `edit_cleanup_settings` successfully writes a setting,
the file's permission bits are set to `0o644` (`os.chmod` with a fixed
mode), whatever they were before; they are preserved only when they were
already `0o644`. -/
theorem C2_chmod_after_write (setting value w : String) (file : ConfigFile)
    (h : (edit_cleanup_settings setting value file).2 = EditOutcome.updated w) :
    (edit_cleanup_settings setting value file).1.mode = 0o644 := by
  rcases edit_result_cases setting value file with ⟨v, hv⟩ | ⟨-, hno⟩
  · rw [hv]
    rfl
  · exact absurd h (hno w)

/-- Witness for C2 (amended) on a concrete write. -/
theorem C2_chmod_after_write_witness :
    (edit_cleanup_settings "TIMELINE_CREATE" "yes"
        { lines := [], mode := 0o600 }).1.mode = 0o644 :=
  C2_chmod_after_write "TIMELINE_CREATE" "yes" "yes"
    { lines := [], mode := 0o600 } (by decide)

/-- C3: for a numeric (age/limit) setting and a value that `int()` cannot
parse, the edit is rejected with the invalid-value report and the
configuration file is returned unchanged (the failure is raised and caught
before the file is ever opened). -/
theorem C3_numeric_invalid_rejected (setting value : String) (file : ConfigFile)
    (hs : setting ∈ numeric_settings) (hv : pyInt value = none) :
    edit_cleanup_settings setting value file = (file, EditOutcome.invalidNumber) := by
  have hval : setting ∈ valid_settings := by
    have hsub : ∀ s ∈ numeric_settings, s ∈ valid_settings := by decide
    exact hsub setting hs
  unfold edit_cleanup_settings
  rw [if_pos hval, if_pos hs, hv]

/-- Witness for C3: `int("abc")` fails, the file is untouched. -/
theorem C3_numeric_invalid_rejected_witness :
    edit_cleanup_settings "TIMELINE_LIMIT_HOURLY" "abc"
        { lines := ["A=1\n"], mode := 0o644 } =
      ({ lines := ["A=1\n"], mode := 0o644 }, EditOutcome.invalidNumber) :=
  C3_numeric_invalid_rejected "TIMELINE_LIMIT_HOURLY" "abc"
    { lines := ["A=1\n"], mode := 0o644 } (by decide) (by decide)

/-- C4: for a boolean cleanup setting, a value whose lower-casing is neither
"yes" nor "no" is rejected with the file unchanged; a valid value rewrites
exactly the lines beginning with `<setting>=` (index by index, every other
line is written back identical), and when no line begins with `<setting>=`
a single `<setting>="<value>"` line is appended. -/
theorem C4_boolean_setting (setting value : String) (file : ConfigFile)
    (hs : setting ∈ boolean_settings) :
    (pyLower value ≠ "yes" ∧ pyLower value ≠ "no" →
       edit_cleanup_settings setting value file = (file, EditOutcome.invalidBool)) ∧
    (pyLower value = "yes" ∨ pyLower value = "no" →
       ((∃ l ∈ file.lines, pyStartsWith l (setting ++ "=") = true) →
           ∀ i : Nat, (edit_cleanup_settings setting value file).1.lines[i]? =
             (file.lines[i]?).map (fun l =>
               if pyStartsWith l (setting ++ "=")
               then setting ++ "=\"" ++ value ++ "\"\n" else l)) ∧
       ((∀ l ∈ file.lines, pyStartsWith l (setting ++ "=") = false) →
           (edit_cleanup_settings setting value file).1.lines =
             file.lines ++ [setting ++ "=\"" ++ value ++ "\"\n"])) := by
  have hval : setting ∈ valid_settings := by
    have hsub : ∀ s ∈ boolean_settings, s ∈ valid_settings := by decide
    exact hsub setting hs
  have hnotnum : setting ∉ numeric_settings := by
    have hsub : ∀ s ∈ boolean_settings, s ∉ numeric_settings := by decide
    exact hsub setting hs
  constructor
  · rintro ⟨hy, hn⟩
    unfold edit_cleanup_settings
    rw [if_pos hval, if_neg hnotnum, if_pos hs, if_neg (not_or.mpr ⟨hy, hn⟩)]
  · intro hv
    have heq : edit_cleanup_settings setting value file =
        (editWrite setting value file, EditOutcome.updated value) := by
      unfold edit_cleanup_settings
      rw [if_pos hval, if_neg hnotnum, if_pos hs, if_pos hv]
    constructor
    · intro hex i
      have hfound : (file.lines.any fun l => pyStartsWith l (setting ++ "=")) = true := by
        rw [List.any_eq_true]
        obtain ⟨l, hl, hsw⟩ := hex
        exact ⟨l, hl, hsw⟩
      rw [heq]
      simp only [editWrite, hfound, if_true]
      exact List.getElem?_map ..
    · intro hnone
      have hfound : (file.lines.any fun l => pyStartsWith l (setting ++ "=")) = false := by
        rw [List.any_eq_false]
        intro l hl
        simp [hnone l hl]
      rw [heq]
      simp [editWrite, hfound]

/-- Witness for C4: "maybe" is rejected with the file unchanged; "yes" is
appended when the key is absent. -/
theorem C4_boolean_setting_witness :
    edit_cleanup_settings "TIMELINE_CREATE" "maybe"
        { lines := ["A=1\n"], mode := 0o644 } =
      ({ lines := ["A=1\n"], mode := 0o644 }, EditOutcome.invalidBool) ∧
    (edit_cleanup_settings "TIMELINE_CREATE" "yes"
        { lines := ["A=1\n"], mode := 0o644 }).1.lines =
      ["A=1\n", "TIMELINE_CREATE=\"yes\"\n"] :=
  ⟨(C4_boolean_setting "TIMELINE_CREATE" "maybe"
      { lines := ["A=1\n"], mode := 0o644 } (by decide)).1 (by decide),
   ((C4_boolean_setting "TIMELINE_CREATE" "yes"
      { lines := ["A=1\n"], mode := 0o644 } (by decide)).2 (by decide)).2 (by decide)⟩

/-- The head of `dropWhile p` never satisfies `p`. -/
theorem dropWhile_head_false (p : Char → Bool) (l : List Char) (c : Char) (t : List Char)
    (h : l.dropWhile p = c :: t) : p c = false := by
  induction l with
  | nil => simp at h
  | cons a l ih =>
    rw [List.dropWhile_cons] at h
    by_cases hp : p a = true
    · rw [if_pos hp] at h
      exact ih h
    · rw [if_neg hp] at h
      obtain ⟨rfl, -⟩ := List.cons.inj h
      simpa using hp

/-- A non-empty stripped line never begins with a whitespace character (in
particular never with a space). -/
theorem pyStrip_head_not_space (raw : String) (c : Char) (l : List Char)
    (h : (pyStrip raw).data = c :: l) : pySpace c = false := by
  have h2 : ((raw.data.dropWhile pySpace).reverse.dropWhile pySpace).reverse = c :: l := h
  have h3 : (raw.data.dropWhile pySpace).reverse.dropWhile pySpace = (c :: l).reverse := by
    rw [← h2, List.reverse_reverse]
  have hsuf : (c :: l).reverse <:+ (raw.data.dropWhile pySpace).reverse := by
    rw [← h3]
    exact List.dropWhile_suffix pySpace
  have hpre : c :: l <+: raw.data.dropWhile pySpace := List.reverse_suffix.mp hsuf
  obtain ⟨t, ht⟩ := hpre
  exact dropWhile_head_false pySpace raw.data c (l ++ t) (by rw [← ht]; rfl)

/-- A stripped line with a first character is not the empty string. -/
theorem pyStrip_ne_empty_of_cons (raw : String) (c : Char) (l : List Char)
    (h : (pyStrip raw).data = c :: l) : ¬ pyStrip raw = "" := by
  intro he
  rw [he] at h
  exact List.noConfusion h

/-- C5 counterexample: the line `"+"` has leading character `'+'` but is
not classified as added (the regex demands a character after the status
character), and the line `" + /x"` has leading character `' '` (which the
claim says is dropped) yet is classified as added, because each line is
stripped before classification. -/
theorem C5_diff_parser_counterexample :
    "+".data.head? = some '+' ∧
    compare_snapshots_parse "+" = { added := [], removed := [], modified := [] } ∧
    " + /x".data.head? = some ' ' ∧
    (compare_snapshots_parse " + /x").added = ["/x"] := by
  decide

/-- C5 amended: the example output parses to added `[/a]`, removed `[/b]`,
modified `[/c]` with `/d` nowhere; in general each line is stripped first
(so its first character is never a space), and a stripped line is
classified added/removed/modified exactly when it has at least 2
characters, begins with `'+'`/`'-'`/`'c'` and its second character is not a
newline, the recorded path being the stripped remainder after the first two
characters; every other line leaves all three buckets unchanged. -/
theorem C5_diff_parser_amended :
    compare_snapshots_parse "+ /a\n- /b\nc /c\n  /d" =
      { added := ["/a"], removed := ["/b"], modified := ["/c"] } ∧
    (∀ raw c cs, (pyStrip raw).data = c :: cs → c ≠ ' ') ∧
    (∀ acc raw c2 rest, (pyStrip raw).data = '+' :: c2 :: rest → c2 ≠ '\n' →
        statusStep acc raw = { acc with added := acc.added ++ [pyStrip (String.mk rest)] }) ∧
    (∀ acc raw c2 rest, (pyStrip raw).data = '-' :: c2 :: rest → c2 ≠ '\n' →
        statusStep acc raw = { acc with removed := acc.removed ++ [pyStrip (String.mk rest)] }) ∧
    (∀ acc raw c2 rest, (pyStrip raw).data = 'c' :: c2 :: rest → c2 ≠ '\n' →
        statusStep acc raw = { acc with modified := acc.modified ++ [pyStrip (String.mk rest)] }) ∧
    (∀ acc raw c c2 rest, (pyStrip raw).data = c :: c2 :: rest →
        c ≠ '+' → c ≠ '-' → c ≠ 'c' → statusStep acc raw = acc) ∧
    (∀ acc raw c rest, (pyStrip raw).data = c :: '\n' :: rest → statusStep acc raw = acc) ∧
    (∀ acc raw, (pyStrip raw).data.length < 2 → statusStep acc raw = acc) := by
  refine ⟨by decide, ?_, ?_, ?_, ?_, ?_, ?_, ?_⟩
  · intro raw c cs h hc
    have hns := pyStrip_head_not_space raw c cs h
    rw [hc] at hns
    simp [pySpace] at hns
  · intro acc raw c2 rest h hn
    have hne := pyStrip_ne_empty_of_cons raw _ _ h
    simp [statusStep, statusMatch, h, hne, hn]
  · intro acc raw c2 rest h hn
    have hne := pyStrip_ne_empty_of_cons raw _ _ h
    simp [statusStep, statusMatch, h, hne, hn]
  · intro acc raw c2 rest h hn
    have hne := pyStrip_ne_empty_of_cons raw _ _ h
    simp [statusStep, statusMatch, h, hne, hn]
  · intro acc raw c c2 rest h hp hm hc
    simp [statusStep, statusMatch, h, hp, hm, hc]
  · intro acc raw c rest h
    simp [statusStep, statusMatch, h]
  · intro acc raw hlen
    cases hd : (pyStrip raw).data with
    | nil => simp [statusStep, statusMatch, hd]
    | cons c t =>
      cases t with
      | nil => simp [statusStep, statusMatch, hd]
      | cons c2 t2 =>
        rw [hd] at hlen
        simp at hlen
        omega

/-- Witness for C5 (amended) on the line `"+ /a"`. -/
theorem C5_diff_parser_amended_witness :
    statusStep { added := [], removed := [], modified := [] } "+ /a" =
      { added := ["/a"], removed := [], modified := [] } := by
  have h := C5_diff_parser_amended.2.2.1
    { added := [], removed := [], modified := [] } "+ /a" ' ' ['/', 'a']
    (by decide) (by decide)
  rw [h]
  decide

end ZypShot
